import Mathlib

/-!
Shallow embedding of the mcp-server repository core: the token-scoped
authorization layer (`security.py`), the execution-result data model
(`schemas.py`), the MCP response formatter (`utils.py`), the tool registry
(`tools/base.py`), the JSON-RPC dispatch (`app.py`) and the remote agent
bridge (`remote/connection_manager.py`), together with theorems settling
the frozen claims about them.
-/

/-! ### Shell-glob matching (model of Python `fnmatch.fnmatch` on POSIX)

`fnmatch.fnmatch(name, pat)` on POSIX is case-sensitive matching of the
whole name against a shell glob: `*` matches any sequence, `?` any single
character, `[seq]` a character set (leading `!` negates, a leading `]` is
literal, `a-z` is a code-point range); a `[` with no closing `]` is a
literal character. -/

/-- Scan the characters of a bracket set up to the closing `]`.
Returns the set body and the remaining pattern, or `none` when no `]` follows. -/
def scanClass : List Char → Option (List Char × List Char)
  | [] => none
  | c :: rest =>
    if c = ']' then some ([], rest)
    else
      match scanClass rest with
      | some (cls, r) => some (c :: cls, r)
      | none => none

/-- Parse a bracket set right after an opening `[`: an optional leading `!`
(negation), then an optional literal `]`, then the body up to the closing `]`. -/
def parseClass (cs : List Char) : Option (Bool × List Char × List Char) :=
  match cs with
  | '!' :: ']' :: rest =>
    match scanClass rest with
    | some (cls, r) => some (true, ']' :: cls, r)
    | none => none
  | '!' :: rest =>
    match scanClass rest with
    | some (cls, r) => some (true, cls, r)
    | none => none
  | ']' :: rest =>
    match scanClass rest with
    | some (cls, r) => some (false, ']' :: cls, r)
    | none => none
  | _ =>
    match scanClass cs with
    | some (cls, r) => some (false, cls, r)
    | none => none

/-- Membership of a character in a bracket-set body; `a-z` denotes a
code-point range, other characters are literals. -/
def charInClass (c : Char) : List Char → Bool
  | lo :: '-' :: hi :: rest =>
    (lo.toNat ≤ c.toNat && c.toNat ≤ hi.toNat) || charInClass c rest
  | x :: rest => (c == x) || charInClass c rest
  | [] => false

/-- Fuel-indexed glob matcher; each step consumes pattern or input, so
`pattern.length + input.length + 1` fuel always suffices. -/
def globMatchAux : Nat → List Char → List Char → Bool
  | 0, _, _ => false
  | _ + 1, [], s => s.isEmpty
  | fuel + 1, '*' :: ps, [] => globMatchAux fuel ps []
  | fuel + 1, '*' :: ps, c :: cs =>
    globMatchAux fuel ps (c :: cs) || globMatchAux fuel ('*' :: ps) cs
  | _ + 1, '?' :: _, [] => false
  | fuel + 1, '?' :: ps, _ :: cs => globMatchAux fuel ps cs
  | fuel + 1, '[' :: ps, s =>
    match parseClass ps with
    | some (neg, cls, rest) =>
      match s with
      | [] => false
      | c :: cs => (charInClass c cls != neg) && globMatchAux fuel rest cs
    | none =>
      match s with
      | c :: cs => (c == '[') && globMatchAux fuel ps cs
      | [] => false
  | _ + 1, _ :: _, [] => false
  | fuel + 1, p :: ps, c :: cs => (p == c) && globMatchAux fuel ps cs

/-- Model of `fnmatch.fnmatch(name, pat)` (POSIX, case-sensitive). -/
def fnmatch (name : String) (pat : String) : Bool :=
  globMatchAux (pat.length + name.length + 1) pat.data name.data

/-! ### security.py — request state and token policy -/

/-- The per-request authorization state stamped by `verify_api_key` onto
`request.state`: `none` models an attribute that was never set. -/
structure RequestState where
  allowed_tools : Option (List String) := none
  excluded_tools : Option (List String) := none
  api_key : Option String := none
deriving DecidableEq, Repr

/-- One entry of the `API_KEYS` table: the per-token configuration dict
(`tools`, `exclude_tools`, optional `gmail_account`), with the dict-lookup
defaults applied (`.get("tools", [])` and so on). -/
structure ApiKeyConfig where
  tools : List String := []
  exclude_tools : List String := []
  gmail_account : Option String := none
deriving DecidableEq, Repr

/-- `get_allowed_tools`: read `request.state.allowed_tools`, default `["*"]`. -/
def get_allowed_tools (st : RequestState) : List String :=
  st.allowed_tools.getD ["*"]

/-- `get_excluded_tools`: read `request.state.excluded_tools`, default `[]`. -/
def get_excluded_tools (st : RequestState) : List String :=
  st.excluded_tools.getD []

/-- `is_tool_allowed`: the exclusion list is consulted first; then `"*"`
membership in the allowed list; then glob matching over the allowed list. -/
def is_tool_allowed (st : RequestState) (tool_name : String) : Bool :=
  let excluded_tools := get_excluded_tools st
  if !excluded_tools.isEmpty && excluded_tools.any (fun p => fnmatch tool_name p) then
    false
  else
    let allowed_tools := get_allowed_tools st
    if allowed_tools.contains "*" then true
    else allowed_tools.any (fun p => fnmatch tool_name p)

/-- An entry of the `tools/list` catalog (`{name, description, inputSchema}`);
the schema body is opaque here. -/
structure ToolInfo where
  name : String
  description : String
  inputSchema : String
deriving DecidableEq, Repr

/-- `filter_allowed_tools`: keep the tools that are allowed and not excluded. -/
def filter_allowed_tools (st : RequestState) (all_tools : List ToolInfo) : List ToolInfo :=
  let allowed_tools := get_allowed_tools st
  let excluded_tools := get_excluded_tools st
  let is_excluded := fun (tool_name : String) =>
    excluded_tools.any (fun p => fnmatch tool_name p)
  let is_allowed := fun (tool_name : String) =>
    if allowed_tools.contains "*" then true
    else allowed_tools.any (fun p => fnmatch tool_name p)
  all_tools.filter (fun tool => is_allowed tool.name && !is_excluded tool.name)

/-- A raised `fastapi.HTTPException`: status code, detail string, and whether
a `WWW-Authenticate: Bearer` header was attached. -/
structure HttpError where
  status_code : Nat
  detail : String
  www_authenticate : Bool
deriving DecidableEq, Repr

/-- Accumulator pass for `pySplit`: `acc` holds the current word reversed. -/
def pySplitAux : List Char → List Char → List String
  | [], acc => if acc.isEmpty then [] else [String.mk acc.reverse]
  | c :: rest, acc =>
    if c.isWhitespace then
      if acc.isEmpty then pySplitAux rest []
      else String.mk acc.reverse :: pySplitAux rest []
    else pySplitAux rest (c :: acc)

/-- Python `str.split()` with no argument: split on whitespace runs,
dropping empty pieces. -/
def pySplit (s : String) : List String :=
  pySplitAux s.data []

/-- Python `str.lower()` (ASCII case folding suffices for header schemes). -/
def pyLower (s : String) : String :=
  String.mk (s.data.map Char.toLower)

/-- `verify_api_key`: development-mode bypass when no keys are configured,
401 on a missing or malformed header, 403 on an unknown token, and on
success the request state is stamped with the token policy. -/
def verify_api_key (api_keys : List (String × ApiKeyConfig))
    (auth_header : Option String) : Except HttpError RequestState :=
  if api_keys.isEmpty then
    .ok { allowed_tools := some ["*"] }
  else
    match auth_header with
    | none =>
      .error ⟨401, "Missing Authorization Header. Expected format: Authorization: Bearer <token>", true⟩
    | some hdr =>
      let parts := pySplit hdr
      if parts.length != 2 || pyLower (parts.headD "") != "bearer" then
        .error ⟨401, "Invalid Authorization format. Expected Bearer <token>", true⟩
      else
        let token := parts.getD 1 ""
        match List.lookup token api_keys with
        | none => .error ⟨403, "Invalid API Key", false⟩
        | some cfg =>
          .ok { allowed_tools := some cfg.tools
                excluded_tools := some cfg.exclude_tools
                api_key := some token }

/-- `get_api_key_config`: the token comes from `request.state.api_key`, with a
fallback parse of a `Bearer `-prefixed Authorization header; unknown or absent
tokens yield the empty configuration. -/
def get_api_key_config (api_keys : List (String × ApiKeyConfig))
    (st : RequestState) (auth_header : Option String) : ApiKeyConfig :=
  let api_key :=
    match st.api_key with
    | some k => some k
    | none =>
      match auth_header with
      | some h => if h.startsWith "Bearer " then some (h.drop 7) else none
      | none => none
  match api_key with
  | none => {}
  | some k => (List.lookup k api_keys).getD {}

/-- `get_gmail_account`: the mailbox identity bound to the request's token. -/
def get_gmail_account (api_keys : List (String × ApiKeyConfig))
    (st : RequestState) (auth_header : Option String) : Option String :=
  (get_api_key_config api_keys st auth_header).gmail_account

/-- The HTTP response rendered by `http_exception_handler` in `app.py`: a
`JSONResponse` built from the status code and the JSON-RPC error content
(code `-32000` for status 401, `-32001` otherwise), with its extra response
headers. -/
structure JsonRpcHttpError where
  status_code : Nat
  jsonrpc_code : Int
  message : String
  headers : List (String × String)
deriving DecidableEq, Repr

/-- Model of `http_exception_handler`: the `JSONResponse` constructor is
called with `status_code` and `content` only — no headers argument — so the
headers attached to the raised `HTTPException` (such as
`WWW-Authenticate: Bearer`) are not forwarded to the response. -/
def http_exception_handler (exc : HttpError) : JsonRpcHttpError :=
  { status_code := exc.status_code
    jsonrpc_code := if exc.status_code = 401 then -32000 else -32001
    message := exc.detail
    headers := [] }

/-! ### schemas.py — ExecutionResult and its text rendering -/

/-- A metadata value (`Any` in the source); the constructors cover the value
shapes the tools actually store, with Python truthiness and f-string
rendering modelled per shape. -/
inductive MetaValue where
  | str (s : String)
  | int (n : Int)
  | bool (b : Bool)
deriving DecidableEq, Repr

/-- Python truthiness of a metadata value. -/
def MetaValue.truthy : MetaValue → Bool
  | .str s => !s.isEmpty
  | .int n => n != 0
  | .bool b => b

/-- f-string rendering of a metadata value. -/
def MetaValue.render : MetaValue → String
  | .str s => s
  | .int n => toString n
  | .bool b => if b then "True" else "False"

/-- Python `key.replace("_", " ")`. -/
def pyReplaceUnderscore (s : String) : String :=
  String.mk (s.data.map (fun c => if c = '_' then ' ' else c))

/-- Pass for `pyTitle`; the flag records whether the previous character was
alphabetic. -/
def pyTitleAux : Bool → List Char → List Char
  | _, [] => []
  | prevAlpha, c :: rest =>
    if c.isAlpha then
      (if prevAlpha then c.toLower else c.toUpper) :: pyTitleAux true rest
    else
      c :: pyTitleAux false rest

/-- Python `str.title()`: uppercase each letter that follows a non-letter,
lowercase the other letters. -/
def pyTitle (s : String) : String :=
  String.mk (pyTitleAux false s.data)

/-- `ExecutionResult`, the uniform outcome of a tool invocation; metadata is
an insertion-ordered mapping. -/
structure ExecutionResult where
  success : Bool
  stdout : String := ""
  stderr : String := ""
  returncode : Int := 0
  execution_time : String := "0.000s"
  metadata : List (String × MetaValue) := []
  error_type : String := ""
  error_message : String := ""
deriving DecidableEq, Repr

/-- `ExecutionResult.to_text_output`: metadata lines (only truthy values,
skipping `version_info`), the timing and return-code lines, then the
conditional error, stdout and stderr blocks, joined by newlines. -/
def ExecutionResult.to_text_output (r : ExecutionResult) : String :=
  let metaLines :=
    (r.metadata.filter
        (fun kv => kv.2.truthy && !(["version_info"].contains kv.1))).map
      (fun kv => "📁 " ++ pyTitle (pyReplaceUnderscore kv.1) ++ ": " ++ kv.2.render)
  let lines := metaLines
    ++ ["⏱️ Execution Time: " ++ r.execution_time]
    ++ ["🔢 Return Code: " ++ toString r.returncode]
    ++ (if !r.success then
          ["❌ Error: [" ++ r.error_type ++ "] " ++ r.error_message]
        else [])
    ++ (if !r.stdout.isEmpty then ["📤 Standard Output:\n" ++ r.stdout] else [])
    ++ (if !r.stderr.isEmpty then ["⚠️ Standard Error:\n" ++ r.stderr] else [])
  String.intercalate "\n" lines

/-! ### utils.py — MCP response formatting -/

/-- One entry of the `content` list of a tools/call result. -/
structure ContentItem where
  itemType : String
  text : String
deriving DecidableEq, Repr

/-- The dict built by `format_tool_result`: `content` and `isError` always,
`metadata` only when the key was inserted. -/
structure ToolCallResponse where
  content : List ContentItem
  isError : Bool
  metadata : Option (List (String × MetaValue)) := none
deriving DecidableEq, Repr

/-- `format_tool_result`: wrap the text rendering in a single text content
item, set `isError` to the negated success flag, and attach the metadata
mapping only when it is truthy (non-empty). -/
def format_tool_result (result : ExecutionResult) : ToolCallResponse :=
  let text_output := result.to_text_output
  let response : ToolCallResponse :=
    { content := [⟨"text", text_output⟩], isError := !result.success }
  if !result.metadata.isEmpty then
    { response with metadata := some result.metadata }
  else
    response

/-! ### tools/base.py — the tool registry -/

/-- `MCPError`: JSON-RPC error code, message and optional data dict. -/
structure MCPError where
  code : Int
  message : String
  data : Option (List (String × String)) := none
deriving DecidableEq, Repr

/-- A registered `ToolDefinition`; the handler function itself is opaque, but
its declared parameter-name list (what `inspect.signature` reports) is kept. -/
structure ToolDefinition where
  name : String
  description : String
  input_schema : String
  handlerParams : List String
deriving DecidableEq, Repr

/-- The registry's `_tools` dict, insertion ordered. -/
abbrev ToolTable := List (String × ToolDefinition)

/-- Tool arguments (the JSON `arguments` object). -/
abbrev ToolArgs := List (String × MetaValue)

/-- Python dict assignment `m[k] = v`: replace in place when the key exists,
append otherwise. -/
def dictSet : List (String × α) → String → α → List (String × α)
  | [], k, v => [(k, v)]
  | (k0, v0) :: rest, k, v =>
    if k0 = k then (k, v) :: rest else (k0, v0) :: dictSet rest k v

/-- `ToolRegistry.register` (the decorator body): unconditionally assign
`_tools[name] = ToolDefinition(...)`. -/
def ToolRegistry.register (tools : ToolTable) (name description : String)
    (input_schema : String) (handlerParams : List String) : ToolTable :=
  dictSet tools name ⟨name, description, input_schema, handlerParams⟩

/-- `ToolRegistry.list_tools`: the catalog of `{name, description, inputSchema}`. -/
def ToolRegistry.list_tools (tools : ToolTable) : List ToolInfo :=
  tools.map (fun kv => ⟨kv.2.name, kv.2.description, kv.2.input_schema⟩)

/-- How `ToolRegistry.execute` invoked the handler: with the request passed
as a keyword argument, or with the arguments dict alone. -/
inductive HandlerInvocation where
  | withRequest (args : ToolArgs) (request : RequestState)
  | argsOnly (args : ToolArgs)
deriving DecidableEq, Repr

/-- `ToolRegistry.execute`: unknown names raise `MCPError(-32601, ...)`;
otherwise the handler is awaited, with `request` forwarded exactly when the
declared parameter list contains `"request"` and a request object was given. -/
def ToolRegistry.execute (tools : ToolTable) (name : String) (args : ToolArgs)
    (request : Option RequestState) : Except MCPError HandlerInvocation :=
  match List.lookup name tools with
  | none => .error ⟨-32601, "Tool not found: " ++ name, none⟩
  | some tool =>
    match request with
    | some req =>
      if tool.handlerParams.contains "request" then .ok (.withRequest args req)
      else .ok (.argsOnly args)
    | none => .ok (.argsOnly args)

/-! ### app.py — the tools/call dispatch path -/

/-- The permission-denied message raised by `_handle_tools_call`. -/
def permission_denied_message (tool_name : String) : String :=
  "Permission denied: Tool " ++ tool_name ++ " is not allowed for this API Key"

/-- `_handle_tools_call`: deny with `MCPError(-32603)` when the token's policy
rejects the tool, else delegate to the registry and format the handler's
`ExecutionResult`. The opaque handler bodies are summarized by `run`, mapping
the invocation the registry performs to the record the handler returns. -/
def handle_tools_call (tools : ToolTable) (st : RequestState)
    (tool_name : String) (args : ToolArgs)
    (run : HandlerInvocation → ExecutionResult) : Except MCPError ToolCallResponse :=
  if !(is_tool_allowed st tool_name) then
    .error ⟨-32603, permission_denied_message tool_name, some [("tool", tool_name)]⟩
  else
    match ToolRegistry.execute tools tool_name args (some st) with
    | .error e => .error e
    | .ok inv => .ok (format_tool_result (run inv))

/-- The body of a JSON-RPC response from `/mcp`: a `result` member or an
`error` member, never both. -/
inductive JsonRpcOutcome where
  | success (result : ToolCallResponse)
  | rpcError (code : Int) (message : String) (data : Option (List (String × String)))
deriving DecidableEq, Repr

/-- A JSON-RPC response envelope (`id` preserved from the request). -/
structure JsonRpcResponse where
  id : Option Int
  payload : JsonRpcOutcome
deriving DecidableEq, Repr

/-- The `tools/call` branch of `mcp_endpoint`: a returned result is wrapped in
a success envelope; a raised `MCPError` becomes an error envelope. -/
def mcp_dispatch_tools_call (tools : ToolTable) (st : RequestState)
    (req_id : Option Int) (tool_name : String) (args : ToolArgs)
    (run : HandlerInvocation → ExecutionResult) : JsonRpcResponse :=
  match handle_tools_call tools st tool_name args run with
  | .ok r => ⟨req_id, .success r⟩
  | .error e => ⟨req_id, .rpcError e.code e.message e.data⟩

/-! ### remote/connection_manager.py — the remote agent bridge

Connections are identified by numbers; `open_conns` is the set of transports
currently open, `websocket` the manager's active-connection reference, and
`pending_requests` the keys of the `_pending_requests` dict. -/

/-- The mutable state of `RemoteConnectionManager`. -/
structure RemoteState where
  websocket : Option Nat := none
  connection_info : Option (String × String × String) := none
  pending_requests : List String := []
  open_conns : List Nat := []
deriving DecidableEq, Repr

/-- The first frame a connecting agent sends (`auth_data` in the handler). -/
structure AuthMessage where
  msgType : String
  token : String
  client_id : String := "unknown"
  user_agent : String := "unknown"
  timestamp : String := ""
deriving DecidableEq, Repr

/-- The authentication phase of `start_server`'s per-connection `handler`:
the freshly accepted connection `conn` is open; on a wrong frame type, a
wrong token, a timeout or an undecodable frame (`none`) it is closed again;
on success the manager's reference is pointed at `conn` — nothing else in
the state is touched. -/
def handler_auth (server_token : String) (st : RemoteState) (conn : Nat)
    (auth : Option AuthMessage) : RemoteState :=
  let st0 := { st with open_conns := conn :: st.open_conns }
  match auth with
  | none => { st0 with open_conns := st0.open_conns.erase conn }
  | some a =>
    if a.msgType != "auth" then
      { st0 with open_conns := st0.open_conns.erase conn }
    else if a.token != server_token then
      { st0 with open_conns := st0.open_conns.erase conn }
    else
      { st0 with
        websocket := some conn
        connection_info := some (a.client_id, a.user_agent, a.timestamp) }

/-- A `type:"response"` frame from the agent, with the dict-lookup defaults of
`send_command` applied (`success` defaults to false, `error` and `data` are
optional). -/
structure ResponseMessage where
  request_id : String
  success : Bool := false
  data : List (String × String) := []
  error : Option String := none
deriving DecidableEq, Repr

/-- An inbound frame as classified by `_handle_message`. -/
inductive RemoteMessage where
  | response (r : ResponseMessage)
  | event
  | other (msgType : Option String)
  | undecodable
deriving DecidableEq, Repr

/-- `_handle_message`: a response frame whose `request_id` has a pending slot
pops the slot and resolves its future with the frame (returned as the second
component); every other frame leaves the state alone. -/
def handle_message (st : RemoteState) (msg : RemoteMessage) :
    RemoteState × Option ResponseMessage :=
  match msg with
  | .response r =>
    if st.pending_requests.contains r.request_id then
      ({ st with pending_requests := st.pending_requests.erase r.request_id }, some r)
    else (st, none)
  | _ => (st, none)

/-- `is_connected`: a websocket reference exists and that transport is open. -/
def is_connected (st : RemoteState) : Bool :=
  match st.websocket with
  | some c => st.open_conns.contains c
  | none => false

/-- The outcome of one `send_command` call. -/
inductive SendOutcome where
  | noAgent (message : String)
  | remoteFailure (message : String)
  | timeout
  | ok (data : List (String × String))
deriving DecidableEq, Repr

/-- `send_command`: `request_id` is the fresh UUID issued for this call, and
`arrival` is the response frame for that id delivered before the deadline
(`none` when the call times out). With no active connection it raises at
once; otherwise the pending slot is installed, the command is sent, and the
resolved reply is inspected: a falsy `success` raises a RuntimeError carrying
the reply's error string (the exception path then pops the slot, a no-op as
`_handle_message` already popped it); a timeout pops the slot and re-raises. -/
def send_command (st : RemoteState) (request_id : String)
    (arrival : Option ResponseMessage) : SendOutcome × RemoteState :=
  if !is_connected st then
    (.noAgent "無遠端 Browser Agent 連線", st)
  else
    let st1 := { st with pending_requests := st.pending_requests ++ [request_id] }
    match arrival with
    | none =>
      (.timeout, { st1 with pending_requests := st1.pending_requests.erase request_id })
    | some r =>
      let delivered := handle_message st1 (.response { r with request_id := request_id })
      let st2 := delivered.1
      if !r.success then
        (.remoteFailure ("遠端執行失敗: " ++ r.error.getD "未知錯誤"),
          { st2 with pending_requests := st2.pending_requests.erase request_id })
      else
        (.ok r.data, st2)

/-! ### Concrete fixtures and claim-level renderings -/

/-- A handler whose declared parameter list opts in to the request object. -/
def opt_in_tool : ToolDefinition := ⟨"t", "d", "s", ["args", "request"]⟩

/-- A bridge state with one authenticated connection (id 0) and one pending
call, as it stands when a second agent starts its handshake. -/
def firstAgentState : RemoteState :=
  { websocket := some 0
    connection_info := some ("agent-a", "ua-a", "t0")
    pending_requests := ["r1"]
    open_conns := [0] }

/-- The metadata lines the claim describes: one line for every metadata
entry whose key is not `version_info`, regardless of the value. -/
def metaLinesClaimed (l : List (String × MetaValue)) : List String :=
  (l.filter (fun kv => kv.1 != "version_info")).map
    (fun kv => "📁 " ++ pyTitle (pyReplaceUnderscore kv.1) ++ ": " ++ kv.2.render)

/-- The text summary as the claim states it (metadata lines skip only the
`version_info` key). -/
def textSummaryClaimed (r : ExecutionResult) : String :=
  String.intercalate "\n"
    (metaLinesClaimed r.metadata
      ++ ["⏱️ Execution Time: " ++ r.execution_time,
          "🔢 Return Code: " ++ toString r.returncode]
      ++ (if r.success then []
          else ["❌ Error: [" ++ r.error_type ++ "] " ++ r.error_message])
      ++ (if r.stdout = "" then [] else ["📤 Standard Output:\n" ++ r.stdout])
      ++ (if r.stderr = "" then [] else ["⚠️ Standard Error:\n" ++ r.stderr]))

/-- The metadata lines the code actually emits: one line for every metadata
entry with a truthy value whose key is not `version_info`. -/
def metaGoodLines : List (String × MetaValue) → List String
  | [] => []
  | (k, v) :: rest =>
    if v.truthy && k != "version_info" then
      ("📁 " ++ pyTitle (pyReplaceUnderscore k) ++ ": " ++ v.render) :: metaGoodLines rest
    else
      metaGoodLines rest

/-- The text summary as the amended C8 claim states it: truthy-valued
non-`version_info` metadata lines, the Execution Time line, the Return Code
line, an Error line exactly when success is false, a Standard Output block
exactly when stdout is non-empty, and a Standard Error block exactly when
stderr is non-empty, in this order. -/
def textSummarySpec (r : ExecutionResult) : String :=
  String.intercalate "\n"
    (metaGoodLines r.metadata
      ++ ["⏱️ Execution Time: " ++ r.execution_time,
          "🔢 Return Code: " ++ toString r.returncode]
      ++ (if r.success then []
          else ["❌ Error: [" ++ r.error_type ++ "] " ++ r.error_message])
      ++ (if r.stdout = "" then [] else ["📤 Standard Output:\n" ++ r.stdout])
      ++ (if r.stderr = "" then [] else ["⚠️ Standard Error:\n" ++ r.stderr]))

/-- A successful record whose only metadata entry has a falsy (empty-string)
value under a key other than `version_info`. -/
def falsyMetaRecord : ExecutionResult :=
  { success := true, metadata := [("note", .str "")] }

/-! ### Helper lemmas -/

/-- `format_tool_result` always emits a single text content item and the
negated success flag, independently of the metadata branch. -/
theorem format_tool_result_content_isError (res : ExecutionResult) :
    (format_tool_result res).isError = !res.success ∧
    (format_tool_result res).content = [⟨"text", res.to_text_output⟩] := by
  unfold format_tool_result
  by_cases h : !res.metadata.isEmpty <;> simp [h]

/-- Looking up the assigned key after a Python dict assignment yields the
assigned value. -/
theorem lookup_dictSet (m : List (String × α)) (k : String) (v : α) :
    List.lookup k (dictSet m k v) = some v := by
  induction m with
  | nil => simp [dictSet, List.lookup]
  | cons hd tl ih =>
    by_cases h : hd.1 = k
    · simp [dictSet, h, List.lookup]
    · have hne : (k == hd.1) = false := beq_eq_false_iff_ne.mpr (fun e => h e.symm)
      simp [dictSet, h, List.lookup, hne, ih]

/-! ### The claims -/

/-- C10: the `metadata` key of the formatted tools/call result is present
exactly when the record's metadata mapping is non-empty; with empty metadata
the response holds only the single-item content list and the `isError` flag. -/
theorem format_tool_result_metadata_presence (r : ExecutionResult) :
    ((format_tool_result r).metadata = none ↔ r.metadata = []) ∧
    ((format_tool_result r).metadata.isSome ↔ r.metadata ≠ []) ∧
    (format_tool_result r).content = [⟨"text", r.to_text_output⟩] ∧
    (format_tool_result r).isError = !r.success := by
  refine ⟨?_, ?_, (format_tool_result_content_isError r).2,
    (format_tool_result_content_isError r).1⟩ <;>
    · unfold format_tool_result
      cases hm : r.metadata <;> simp [hm]

/-- C9: a lowercase `bearer` scheme is accepted (the token is then looked up
in the key table, succeeding when present and failing with 403 when absent),
while a different scheme word such as `Token` is rejected with HTTP 401. -/
theorem bearer_scheme_lowercase_accepted (cfg : ApiKeyConfig)
    (keys : List (String × ApiKeyConfig)) (hk : keys ≠ []) :
    verify_api_key [("X", cfg)] (some "bearer X") =
      .ok { allowed_tools := some cfg.tools
            excluded_tools := some cfg.exclude_tools
            api_key := some "X" } ∧
    verify_api_key [("Y", cfg)] (some "bearer X") =
      .error ⟨403, "Invalid API Key", false⟩ ∧
    ∃ e, verify_api_key keys (some "Token X") = .error e ∧ e.status_code = 401 := by
  refine ⟨by rfl, by rfl, ?_⟩
  cases keys with
  | nil => exact absurd rfl hk
  | cons a l =>
    exact ⟨⟨401, "Invalid Authorization format. Expected Bearer <token>", true⟩, by rfl, rfl⟩

/-- C9 witness: the theorem applied at a concrete one-entry key table. -/
theorem bearer_scheme_lowercase_accepted_witness :
    verify_api_key [("X", { tools := ["*"] })] (some "bearer X") =
      .ok { allowed_tools := some ["*"]
            excluded_tools := some []
            api_key := some "X" } ∧
    ∃ e, verify_api_key [("K", {})] (some "Token X") = .error e ∧ e.status_code = 401 := by
  have h := bearer_scheme_lowercase_accepted { tools := ["*"] } [("K", {})]
    (List.cons_ne_nil _ _)
  exact ⟨h.1, h.2.2⟩

/-- C7 counterexample: registering the same name twice does not fail; it
silently replaces the first definition, so the catalog no longer holds the
previously registered definition. -/
theorem register_duplicate_counterexample :
    ToolRegistry.register (ToolRegistry.register [] "t" "first" "s1" ["args"])
        "t" "second" "s2" ["args"] =
      [("t", ⟨"t", "second", "s2", ["args"]⟩)] ∧
    List.lookup "t"
        (ToolRegistry.register (ToolRegistry.register [] "t" "first" "s1" ["args"])
          "t" "second" "s2" ["args"]) ≠
      some ⟨"t", "first", "s1", ["args"]⟩ := by
  exact ⟨rfl, by decide⟩

/-- C7 amended: a second registration under the same name succeeds and
replaces the previous definition — last registration wins. -/
theorem register_last_wins (tools : ToolTable) (name d1 s1 d2 s2 : String)
    (p1 p2 : List String) :
    List.lookup name
        (ToolRegistry.register (ToolRegistry.register tools name d1 s1 p1)
          name d2 s2 p2) =
      some ⟨name, d2, s2, p2⟩ :=
  lookup_dictSet _ name _

/-- C6 counterexample: with a handler that declares a `request` parameter but
an execute call that passes no request object, the handler is invoked with the
arguments alone — the scope is not passed although the declared parameter
list contains it. -/
theorem execute_none_request_counterexample :
    opt_in_tool.handlerParams.contains "request" = true ∧
    ToolRegistry.execute [("t", opt_in_tool)] "t" [] none = .ok (.argsOnly []) := by
  exact ⟨rfl, rfl⟩

/-- C6 amended: unknown names fail with code `-32601`; otherwise the handler
receives the request scope exactly when its declared parameter list contains
`request` AND a request object was supplied; in every other case it receives
only the arguments. -/
theorem execute_scope_passing (table : ToolTable) (name : String)
    (args : ToolArgs) (request : Option RequestState) :
    (List.lookup name table = none →
      ToolRegistry.execute table name args request =
        .error ⟨-32601, "Tool not found: " ++ name, none⟩) ∧
    (∀ tool req, List.lookup name table = some tool →
      tool.handlerParams.contains "request" = true →
      ToolRegistry.execute table name args (some req) = .ok (.withRequest args req)) ∧
    (∀ tool, List.lookup name table = some tool →
      tool.handlerParams.contains "request" = false →
      ToolRegistry.execute table name args request = .ok (.argsOnly args)) ∧
    (List.lookup name table ≠ none →
      ToolRegistry.execute table name args none = .ok (.argsOnly args)) := by
  refine ⟨fun h => by simp [ToolRegistry.execute, h], ?_, ?_, ?_⟩
  · intro tool req h hp
    simp at hp
    simp [ToolRegistry.execute, h, hp]
  · intro tool h hp
    simp at hp
    cases request <;> simp [ToolRegistry.execute, h, hp]
  · intro h
    obtain ⟨tool, htool⟩ := Option.ne_none_iff_exists'.mp h
    simp [ToolRegistry.execute, htool]

/-- C6 witness: the amended theorem applied at concrete registries. -/
theorem execute_scope_passing_witness :
    ToolRegistry.execute [] "x" [] none =
      .error ⟨-32601, "Tool not found: x", none⟩ ∧
    ToolRegistry.execute [("t", opt_in_tool)] "t" [] (some {}) =
      .ok (.withRequest [] {}) ∧
    ToolRegistry.execute [("u", ⟨"u", "d", "s", ["args"]⟩)] "u" [] (some {}) =
      .ok (.argsOnly []) ∧
    ToolRegistry.execute [("t", opt_in_tool)] "t" [] none = .ok (.argsOnly []) := by
  refine ⟨(execute_scope_passing [] "x" [] none).1 rfl,
    (execute_scope_passing [("t", opt_in_tool)] "t" [] (some {})).2.1 opt_in_tool {} rfl rfl,
    (execute_scope_passing [("u", ⟨"u", "d", "s", ["args"]⟩)] "u" [] (some {})).2.2.1
      ⟨"u", "d", "s", ["args"]⟩ rfl rfl,
    (execute_scope_passing [("t", opt_in_tool)] "t" [] none).2.2.2 (by simp)⟩

/-- C4 counterexample: a second successful handshake (connection 1) while
connection 0 is active with a pending call makes connection 1 the routing
target, yet connection 0 stays open and the pending call is still pending —
it was not failed with any Disconnected error. -/
theorem second_handshake_counterexample :
    (handler_auth "tok" firstAgentState 1
        (some ⟨"auth", "tok", "agent-b", "ua-b", "t1"⟩)).websocket = some 1 ∧
    (handler_auth "tok" firstAgentState 1
        (some ⟨"auth", "tok", "agent-b", "ua-b", "t1"⟩)).open_conns = [1, 0] ∧
    (handler_auth "tok" firstAgentState 1
        (some ⟨"auth", "tok", "agent-b", "ua-b", "t1"⟩)).pending_requests = ["r1"] := by
  exact ⟨rfl, rfl, rfl⟩

/-- C4 amended: a successful second handshake only repoints the manager's
reference at the new connection and stores its info; the previously active
connection is left open and every pending call remains installed untouched. -/
theorem second_handshake_no_cleanup (server_token : String) (st : RemoteState)
    (conn : Nat) (a : AuthMessage)
    (htype : a.msgType = "auth") (htok : a.token = server_token) :
    handler_auth server_token st conn (some a) =
      { st with websocket := some conn
                connection_info := some (a.client_id, a.user_agent, a.timestamp)
                open_conns := conn :: st.open_conns } := by
  unfold handler_auth
  simp [htype, htok]

/-- C4 witness: the amended theorem applied at a concrete handshake. -/
theorem second_handshake_no_cleanup_witness :
    handler_auth "tok" firstAgentState 1 (some ⟨"auth", "tok", "agent-b", "ua-b", "t1"⟩) =
      { websocket := some 1
        connection_info := some ("agent-b", "ua-b", "t1")
        pending_requests := ["r1"]
        open_conns := [1, 0] } :=
  second_handshake_no_cleanup "tok" firstAgentState 1
    ⟨"auth", "tok", "agent-b", "ua-b", "t1"⟩ rfl rfl

/-- C5: `send_command` fails immediately (no slot installed, state unchanged)
without an active connection; a delivered reply with falsy success yields the
remote-failure error carrying the reply's error string; no reply before the
deadline yields the timeout outcome; and in every outcome the pending table
the function leaves behind equals the one it started from — the slot for the
issued request id is always released. -/
theorem send_command_releases_slot (st : RemoteState) (request_id : String)
    (arrival : Option ResponseMessage)
    (hfresh : request_id ∉ st.pending_requests) :
    (is_connected st = false →
      send_command st request_id arrival = (.noAgent "無遠端 Browser Agent 連線", st)) ∧
    (is_connected st = true → ∀ r, arrival = some r → r.success = false →
      (send_command st request_id arrival).1 =
        .remoteFailure ("遠端執行失敗: " ++ r.error.getD "未知錯誤")) ∧
    (is_connected st = true → arrival = none →
      (send_command st request_id arrival).1 = .timeout) ∧
    (send_command st request_id arrival).2.pending_requests = st.pending_requests := by
  have herase : (st.pending_requests ++ [request_id]).erase request_id =
      st.pending_requests := by
    rw [List.erase_append_right _ hfresh, List.erase_cons_head, List.append_nil]
  have hcontains : (st.pending_requests ++ [request_id]).contains request_id = true :=
    List.elem_eq_true_of_mem (by simp)
  cases hc : is_connected st with
  | false =>
    have hsc : send_command st request_id arrival =
        (.noAgent "無遠端 Browser Agent 連線", st) := by
      simp [send_command, hc]
    exact ⟨fun _ => hsc, fun h => absurd h (by simp), fun h _ => absurd h (by simp),
      by rw [hsc]⟩
  | true =>
    refine ⟨fun h => absurd h (by simp), ?_, ?_, ?_⟩
    · intro _ r harr hr
      subst harr
      simp [send_command, hc, handle_message, hcontains, hr]
    · intro _ harr
      subst harr
      simp [send_command, hc]
    · cases arrival with
      | none => simp [send_command, hc, herase]
      | some r =>
        cases hr : r.success <;>
          simp [send_command, hc, handle_message, hcontains, hr, herase,
            List.erase_of_not_mem hfresh]

/-- C5 witness: the theorem applied with no connection, with a failed reply,
and with a timeout. -/
theorem send_command_releases_slot_witness :
    send_command {} "r" none = (.noAgent "無遠端 Browser Agent 連線", {}) ∧
    (send_command ⟨some 0, none, [], [0]⟩ "r" (some ⟨"r", false, [], some "boom"⟩)).1 =
      .remoteFailure ("遠端執行失敗: " ++ (some "boom").getD "未知錯誤") ∧
    (send_command ⟨some 0, none, [], [0]⟩ "r" none).1 = .timeout ∧
    (send_command ⟨some 0, none, [], [0]⟩ "r" none).2.pending_requests = [] := by
  have h1 := send_command_releases_slot {} "r" none (by simp)
  have h2 := send_command_releases_slot ⟨some 0, none, [], [0]⟩ "r"
    (some ⟨"r", false, [], some "boom"⟩) (by simp)
  have h3 := send_command_releases_slot ⟨some 0, none, [], [0]⟩ "r" none (by simp)
  exact ⟨h1.1 rfl, h2.2.1 rfl _ rfl rfl, h3.2.2.1 rfl rfl, h3.2.2.2⟩

/-- `is_tool_allowed` in closed form: no excluded pattern matches, and the
allowed list holds `"*"` or a matching pattern. -/
theorem is_tool_allowed_eq (st : RequestState) (nm : String) :
    is_tool_allowed st nm =
      (!(get_excluded_tools st).any (fun p => fnmatch nm p) &&
        ((get_allowed_tools st).contains "*" ||
          (get_allowed_tools st).any (fun p => fnmatch nm p))) := by
  unfold is_tool_allowed
  cases hE : (get_excluded_tools st).any (fun p => fnmatch nm p) with
  | true =>
    have hne : (get_excluded_tools st).isEmpty = false := by
      cases hl : get_excluded_tools st with
      | nil => rw [hl] at hE; simp at hE
      | cons a l => rfl
    simp [hne, hE]
  | false =>
    simp only [hE, Bool.and_false, Bool.false_eq_true, if_false, Bool.not_false,
      Bool.true_and]
    cases hC : (get_allowed_tools st).contains "*" <;> simp [hC]

/-- C1: exclusion is evaluated before inclusion — `is_tool_allowed` is false
whenever an excluded pattern glob-matches the name (any allowed patterns
notwithstanding) and otherwise true exactly when `"*"` is allowed or an
allowed pattern matches; the filtered `tools/list` catalog keeps a tool
exactly when `is_tool_allowed` holds of it, and a `tools/call` on an excluded
name is denied with code `-32603`. -/
theorem exclusion_before_inclusion (allowed excluded : List String)
    (name : String) (tools : List ToolInfo) (tool : ToolInfo)
    (table : ToolTable) (args : ToolArgs)
    (run : HandlerInvocation → ExecutionResult) :
    (is_tool_allowed { allowed_tools := some allowed, excluded_tools := some excluded }
        name =
      (!(excluded.any (fun p => fnmatch name p)) &&
        (allowed.contains "*" || allowed.any (fun p => fnmatch name p)))) ∧
    (tool ∈ filter_allowed_tools
        { allowed_tools := some allowed, excluded_tools := some excluded } tools ↔
      tool ∈ tools ∧
        is_tool_allowed { allowed_tools := some allowed, excluded_tools := some excluded }
          tool.name = true) ∧
    (excluded.any (fun p => fnmatch name p) = true →
      handle_tools_call table
          { allowed_tools := some allowed, excluded_tools := some excluded }
          name args run =
        .error ⟨-32603, permission_denied_message name, some [("tool", name)]⟩) := by
  have hpred : ∀ nm : String,
      ((if allowed.contains "*" = true then true
        else allowed.any (fun p => fnmatch nm p)) &&
        !(excluded.any (fun p => fnmatch nm p))) =
      is_tool_allowed { allowed_tools := some allowed, excluded_tools := some excluded }
        nm := by
    intro nm
    rw [is_tool_allowed_eq]
    simp only [get_allowed_tools, get_excluded_tools, Option.getD_some]
    cases hC : allowed.contains "*" <;>
      cases hE : excluded.any (fun p => fnmatch nm p) <;>
        simp [hC, hE, Bool.and_comm]
  refine ⟨is_tool_allowed_eq _ _, ?_, ?_⟩
  · rw [filter_allowed_tools, List.mem_filter]
    simp only [get_allowed_tools, get_excluded_tools, Option.getD_some]
    rw [hpred tool.name]
  · intro hx
    have h1 : is_tool_allowed
        { allowed_tools := some allowed, excluded_tools := some excluded } name =
        false := by
      rw [is_tool_allowed_eq]
      simp [get_excluded_tools, hx]
    simp [handle_tools_call, h1]

/-- C1 witness: the theorem applied to a policy that allows everything but
excludes `web_*`, at the tool name `web_fetch`. -/
theorem exclusion_before_inclusion_witness :
    is_tool_allowed { allowed_tools := some ["*"], excluded_tools := some ["web_*"] }
        "web_fetch" = false ∧
    handle_tools_call []
        { allowed_tools := some ["*"], excluded_tools := some ["web_*"] }
        "web_fetch" [] (fun _ => { success := true }) =
      .error ⟨-32603, permission_denied_message "web_fetch",
        some [("tool", "web_fetch")]⟩ := by
  have h := exclusion_before_inclusion ["*"] ["web_*"] "web_fetch" []
    ⟨"web_fetch", "", ""⟩ [] [] (fun _ => { success := true })
  refine ⟨?_, h.2.2 (by decide)⟩
  rw [h.1]
  decide

/-- C2: when the policy admits the tool, the registry finds it, and the
handler returns a record with `success = false`, the endpoint answers with a
JSON-RPC success envelope whose result carries `isError = true` and a single
text content entry — never with a JSON-RPC error object. -/
theorem failed_result_is_rpc_success (table : ToolTable) (st : RequestState)
    (req_id : Option Int) (name : String) (args : ToolArgs)
    (run : HandlerInvocation → ExecutionResult)
    (hallow : is_tool_allowed st name = true)
    (hfound : (List.lookup name table).isSome = true)
    (hfail : ∀ inv, (run inv).success = false) :
    ∃ resp : ToolCallResponse,
      mcp_dispatch_tools_call table st req_id name args run =
        ⟨req_id, .success resp⟩ ∧
      resp.isError = true ∧
      ∃ msg, resp.content = [⟨"text", msg⟩] := by
  obtain ⟨tool, htool⟩ : ∃ t, List.lookup name table = some t := by
    cases h : List.lookup name table with
    | none => rw [h] at hfound; simp at hfound
    | some t => exact ⟨t, rfl⟩
  cases hcp : tool.handlerParams.contains "request" with
  | true =>
    refine ⟨format_tool_result (run (.withRequest args st)), ?_, ?_, ?_⟩
    · simp at hcp
      simp [mcp_dispatch_tools_call, handle_tools_call, ToolRegistry.execute,
        hallow, htool, hcp]
    · rw [(format_tool_result_content_isError _).1, hfail]
      rfl
    · exact ⟨_, (format_tool_result_content_isError _).2⟩
  | false =>
    refine ⟨format_tool_result (run (.argsOnly args)), ?_, ?_, ?_⟩
    · simp at hcp
      simp [mcp_dispatch_tools_call, handle_tools_call, ToolRegistry.execute,
        hallow, htool, hcp]
    · rw [(format_tool_result_content_isError _).1, hfail]
      rfl
    · exact ⟨_, (format_tool_result_content_isError _).2⟩

/-- C2 witness: the theorem applied to a one-tool registry whose handler
reports a failure. -/
theorem failed_result_is_rpc_success_witness :
    ∃ resp : ToolCallResponse,
      mcp_dispatch_tools_call [("t", ⟨"t", "d", "s", ["args"]⟩)] {} (some 1) "t" []
          (fun _ => { success := false, error_type := "E", error_message := "m" }) =
        ⟨some 1, .success resp⟩ ∧
      resp.isError = true ∧
      ∃ msg, resp.content = [⟨"text", msg⟩] :=
  failed_result_is_rpc_success [("t", ⟨"t", "d", "s", ["args"]⟩)] {} (some 1) "t" []
    (fun _ => { success := false, error_type := "E", error_message := "m" })
    (by decide) (by decide) (fun _ => rfl)

/-- C3 counterexample: on a missing Authorization header the exception is
raised with HTTP 401 and the `WWW-Authenticate: Bearer` header attached, but
the response rendered by `http_exception_handler` carries no headers at all —
the claim's assertion that the failure response has a
`WWW-Authenticate: Bearer` response header is false of the program. -/
theorem www_authenticate_not_forwarded :
    verify_api_key [("k", {})] none =
      .error ⟨401,
        "Missing Authorization Header. Expected format: Authorization: Bearer <token>",
        true⟩ ∧
    http_exception_handler
        ⟨401,
          "Missing Authorization Header. Expected format: Authorization: Bearer <token>",
          true⟩ =
      ⟨401, -32000,
        "Missing Authorization Header. Expected format: Authorization: Bearer <token>",
        []⟩ := by
  exact ⟨rfl, rfl⟩

/-- C3 amended: on a missing or non-two-part-Bearer Authorization header the
Authorizer fails with HTTP 401 and JSON-RPC code `-32000`; the raised
exception carries the `WWW-Authenticate: Bearer` header, but the rendered
response built by the app's exception handler forwards no headers, so the 401
response itself carries none. On a well-formed header whose token is not in
the configured table it fails with HTTP 403, and when no tokens are
configured at all it succeeds with allowed tools `["*"]` and no mailbox
binding. -/
theorem verify_api_key_outcomes (keys : List (String × ApiKeyConfig))
    (hdr : Option String) :
    (keys = [] →
      ∃ st, verify_api_key keys hdr = .ok st ∧
        get_allowed_tools st = ["*"] ∧
        ∀ h2 : Option String, get_gmail_account keys st h2 = none) ∧
    (keys ≠ [] →
      (hdr = none ∨ ∃ h, hdr = some h ∧
        ((pySplit h).length ≠ 2 ∨ pyLower ((pySplit h).headD "") ≠ "bearer")) →
      ∃ e, verify_api_key keys hdr = .error e ∧ e.status_code = 401 ∧
        e.www_authenticate = true ∧
        (http_exception_handler e).jsonrpc_code = -32000 ∧
        (http_exception_handler e).headers = []) ∧
    (keys ≠ [] → ∀ h, hdr = some h →
      (pySplit h).length = 2 → pyLower ((pySplit h).headD "") = "bearer" →
      List.lookup ((pySplit h).getD 1 "") keys = none →
      ∃ e, verify_api_key keys hdr = .error e ∧ e.status_code = 403) := by
  refine ⟨?_, ?_, ?_⟩
  · intro hk
    subst hk
    refine ⟨{ allowed_tools := some ["*"] }, rfl, rfl, ?_⟩
    intro h2
    unfold get_gmail_account get_api_key_config
    cases h2 with
    | none => rfl
    | some h => cases hs : h.startsWith "Bearer " <;> simp [hs]
  · intro hk hbad
    obtain ⟨a, l, hkeys⟩ : ∃ a l, keys = a :: l := by
      cases keys with
      | nil => exact absurd rfl hk
      | cons a l => exact ⟨a, l, rfl⟩
    subst hkeys
    rcases hbad with hnone | ⟨h, hsome, hmal⟩
    · subst hnone
      exact ⟨⟨401, "Missing Authorization Header. Expected format: Authorization: Bearer <token>", true⟩,
        rfl, rfl, rfl, rfl, rfl⟩
    · subst hsome
      have hcond : ((pySplit h).length != 2 ||
          pyLower ((pySplit h).headD "") != "bearer") = true := by
        rcases hmal with hlen | hbear
        · simp [bne_iff_ne, hlen]
        · simp only [bne_iff_ne, Bool.or_eq_true, decide_eq_true_eq]
          right
          simpa using hbear
      refine ⟨⟨401, "Invalid Authorization format. Expected Bearer <token>", true⟩,
        ?_, rfl, rfl, rfl, rfl⟩
      simp only [verify_api_key, List.isEmpty_cons, Bool.false_eq_true, if_false]
      rw [if_pos hcond]
  · intro hk h hsome hlen hbear hlook
    obtain ⟨a, l, hkeys⟩ : ∃ a l, keys = a :: l := by
      cases keys with
      | nil => exact absurd rfl hk
      | cons a l => exact ⟨a, l, rfl⟩
    subst hkeys
    subst hsome
    have hcond : ((pySplit h).length != 2 ||
        pyLower ((pySplit h).headD "") != "bearer") = false := by
      simp only [Bool.or_eq_false_iff, bne_eq_false_iff_eq]
      exact ⟨by simpa using hlen, by simpa using hbear⟩
    refine ⟨⟨403, "Invalid API Key", false⟩, ?_, rfl⟩
    simp only [verify_api_key, List.isEmpty_cons, Bool.false_eq_true, if_false]
    rw [if_neg (by simp only [hcond]; exact Bool.false_ne_true), hlook]

/-- C3 witness: the theorem applied in development mode, on a missing header,
and on a well-formed header with an unknown token. -/
theorem verify_api_key_outcomes_witness :
    (∃ st, verify_api_key [] (some "Bearer k") = .ok st ∧
      get_allowed_tools st = ["*"] ∧
      ∀ h2 : Option String, get_gmail_account [] st h2 = none) ∧
    (∃ e, verify_api_key [("k", {})] none = .error e ∧ e.status_code = 401 ∧
      e.www_authenticate = true ∧
      (http_exception_handler e).jsonrpc_code = -32000 ∧
      (http_exception_handler e).headers = []) ∧
    (∃ e, verify_api_key [("k", {})] (some "Bearer zzz") = .error e ∧
      e.status_code = 403) := by
  refine ⟨(verify_api_key_outcomes [] (some "Bearer k")).1 rfl,
    (verify_api_key_outcomes [("k", {})] none).2.1 (List.cons_ne_nil _ _) (Or.inl rfl),
    (verify_api_key_outcomes [("k", {})] (some "Bearer zzz")).2.2 (List.cons_ne_nil _ _)
      "Bearer zzz" rfl (by decide) (by decide) (by decide)⟩

/-- C8 counterexample: the entry `("note", "")` has a key different from
`version_info`, yet the rendered summary holds no line for it — the code also
skips metadata entries whose value is falsy, so the claimed rendering
disagrees with the actual one. -/
theorem to_text_output_falsy_counterexample :
    ExecutionResult.to_text_output falsyMetaRecord ≠ textSummaryClaimed falsyMetaRecord ∧
    ExecutionResult.to_text_output falsyMetaRecord =
      "⏱️ Execution Time: 0.000s\n🔢 Return Code: 0" := by
  constructor
  · decide
  · rfl

/-- C8 amended: the rendered summary is exactly the deterministic
concatenation of one line per truthy-valued metadata entry outside
`version_info`, the Execution Time and Return Code lines, the conditional
Error line, and the conditional Standard Output and Standard Error blocks. -/
theorem to_text_output_characterization (r : ExecutionResult) :
    r.to_text_output = textSummarySpec r := by
  have hmeta : ∀ l : List (String × MetaValue),
      (l.filter (fun kv => kv.2.truthy && !(["version_info"].contains kv.1))).map
          (fun kv => "📁 " ++ pyTitle (pyReplaceUnderscore kv.1) ++ ": " ++ kv.2.render) =
        metaGoodLines l := by
    intro l
    induction l with
    | nil => rfl
    | cons hd tl ih =>
      obtain ⟨k, v⟩ := hd
      have hcond : (v.truthy && !(["version_info"].contains k)) =
          (v.truthy && k != "version_info") := by
        by_cases he : k = "version_info" <;> simp [he]
      rw [List.filter_cons]
      by_cases hc : (v.truthy && k != "version_info") = true
      · have hb : ((fun kv : String × MetaValue =>
            kv.2.truthy && !(["version_info"].contains kv.1)) (k, v)) = true := by
          show (v.truthy && !(["version_info"].contains k)) = true
          rw [hcond]
          exact hc
        rw [if_pos hb, List.map_cons, ih]
        show _ = metaGoodLines ((k, v) :: tl)
        simp only [metaGoodLines]
        rw [if_pos hc]
      · have hb : ¬((fun kv : String × MetaValue =>
            kv.2.truthy && !(["version_info"].contains kv.1)) (k, v)) = true := by
          show ¬(v.truthy && !(["version_info"].contains k)) = true
          rw [hcond]
          exact hc
        rw [if_neg hb, ih]
        show _ = metaGoodLines ((k, v) :: tl)
        simp only [metaGoodLines]
        rw [if_neg hc]
  have hiff : ∀ s : String, s.isEmpty = false ↔ ¬s = "" := by
    intro s
    constructor
    · intro h hs
      subst hs
      exact absurd h (by decide)
    · intro h
      cases hb : s.isEmpty with
      | false => rfl
      | true => exact absurd ((String.isEmpty_iff s).mp hb) h
  unfold ExecutionResult.to_text_output textSummarySpec
  rw [hmeta]
  cases hsu : r.success <;>
    by_cases hso : r.stdout = "" <;>
      by_cases hse : r.stderr = "" <;>
        simp [hsu, hso, hse, hiff]
